import Mathlib

/-!
Verification of the task-routing and model-selection engine
(`src/core/multi_ai_engine.py`, class `MultiAIEngine`) against its
natural-language specification.

The Python source is shallowly embedded below: dictionaries become
association lists (Python dicts preserve insertion order), floats used
only in comparisons become integers scaled by 100, `random.random()` draws and
`random.choice` picks become explicit parameters, and the external
generative calls (OpenAI / Gemini) become an explicit `AdapterOutcome`
parameter describing what the external collaborator did (returned text,
or raised an exception carrying a message).
-/

set_option maxHeartbeats 1000000

namespace PersonalAI

/-! ## String machinery

Mirrors the Python string operations used by the engine: `str.lower()`
(case folding, modelled on the ASCII range), the substring test
`needle in hay`, and occurrence counting (used only to state the
specification side of the scoring-rule claims). -/

/-- ASCII case folding of one character (model of Python `str.lower` on
the character range the keyword lists exercise). -/
def lowerChar (c : Char) : Char :=
  if 65 ≤ c.toNat ∧ c.toNat ≤ 90 then Char.ofNat (c.toNat + 32) else c

/-- Model of Python `s.lower()`. -/
def lowerStr (s : String) : String := ⟨s.data.map lowerChar⟩

/-- Model of Python `needle in hay` on lists of characters: `needle` is a
prefix of some suffix of `hay`. -/
def isSubstrL (needle : List Char) : List Char → Bool
  | [] => needle.isEmpty
  | c :: rest => needle.isPrefixOf (c :: rest) || isSubstrL needle rest

/-- Model of Python `needle in hay` on strings. -/
def strIn (needle hay : String) : Bool := isSubstrL needle.data hay.data

/-- All suffixes of a list, longest first (the last one is `[]`). -/
def suffixes : List Char → List (List Char)
  | [] => [[]]
  | c :: rest => (c :: rest) :: suffixes rest

/-- Number of positions at which `needle` occurs inside `hay`,
overlapping occurrences counted independently. -/
def countOccurrences (needle hay : List Char) : Nat :=
  (suffixes hay).countP (fun t => needle.isPrefixOf t)

theorem isSubstrL_eq_any_suffixes (needle hay : List Char) :
    isSubstrL needle hay = (suffixes hay).any (fun t => needle.isPrefixOf t) := by
  induction hay with
  | nil => cases needle <;> simp [isSubstrL, suffixes, List.isPrefixOf]
  | cons c rest ih => simp [isSubstrL, suffixes, ih]

/-- A phrase that occurs as a substring occurs at least once. -/
theorem one_le_countOccurrences_of_isSubstrL (needle hay : List Char)
    (h : isSubstrL needle hay = true) : 1 ≤ countOccurrences needle hay := by
  rw [isSubstrL_eq_any_suffixes, List.any_eq_true] at h
  rcases h with ⟨t, ht, hpre⟩
  exact Nat.one_le_iff_ne_zero.mpr (by
    intro h0
    rw [countOccurrences] at h0
    have := List.countP_eq_zero.mp h0 t ht
    exact this hpre)

/-! ## Python `max(iterable, key=key)`

Python `max` scans left to right and replaces the running best only on a
strictly greater key, so the first maximal element is returned; on an
empty iterable it raises (modelled as `none`). -/

section PyMax

variable {α β : Type} [LinearOrder β]

/-- One comparison step of Python `max(..., key=key)`. -/
def pyStep (key : α → β) (best y : α) : α := if key best < key y then y else best

/-- Model of Python `max(l, key=key)`. -/
def pyMaxBy (key : α → β) : List α → Option α
  | [] => none
  | x :: xs => some (xs.foldl (pyStep key) x)

theorem key_le_foldl (key : α → β) (x : α) (l : List α) :
    key x ≤ key (l.foldl (pyStep key) x) := by
  induction l generalizing x with
  | nil => exact le_refl _
  | cons y l ih =>
    simp only [List.foldl_cons]
    refine le_trans ?_ (ih (pyStep key x y))
    unfold pyStep
    split
    · exact le_of_lt (by assumption)
    · exact le_refl _

theorem key_le_foldl_of_mem (key : α → β) (x : α) (l : List α) :
    ∀ y ∈ l, key y ≤ key (l.foldl (pyStep key) x) := by
  induction l generalizing x with
  | nil => intro y hy; cases hy
  | cons z l ih =>
    intro y hy
    simp only [List.foldl_cons]
    rcases List.mem_cons.mp hy with h | h
    · refine le_trans ?_ (key_le_foldl key (pyStep key x z) l)
      subst h
      unfold pyStep
      split
      · exact le_refl _
      · exact le_of_not_lt (by assumption)
    · exact ih (pyStep key x z) y h

theorem foldl_first_max (key : α → β) (x : α) (l : List α) :
    ∃ l₁ l₂, x :: l = l₁ ++ (l.foldl (pyStep key) x) :: l₂ ∧
      ∀ y ∈ l₁, key y < key (l.foldl (pyStep key) x) := by
  induction l generalizing x with
  | nil => exact ⟨[], [], rfl, by simp⟩
  | cons z l ih =>
    simp only [List.foldl_cons]
    rcases ih (pyStep key x z) with ⟨l₁, l₂, heq, hlt⟩
    by_cases h : key x < key z
    · have hz : pyStep key x z = z := if_pos h
      refine ⟨x :: l₁, l₂, ?_, ?_⟩
      · rw [List.cons_append, ← heq, hz]
      · intro y hy
        rcases List.mem_cons.mp hy with hm | hy'
        · rw [hm, hz]
          exact lt_of_lt_of_le h (key_le_foldl key z l)
        · exact hlt y hy'
    · have hz : pyStep key x z = x := if_neg h
      rw [hz] at heq hlt ⊢
      cases l₁ with
      | nil =>
        rw [List.nil_append] at heq
        injection heq with h1 h2
        refine ⟨[], z :: l, ?_, by simp⟩
        rw [List.nil_append, ← h1]
      | cons w l₁' =>
        rw [List.cons_append] at heq
        injection heq with h1 h2
        subst h1
        refine ⟨x :: z :: l₁', l₂, ?_, ?_⟩
        · simp only [List.cons_append]
          rw [← h2]
        · intro y hy
          have hxlt : key x < key (l.foldl (pyStep key) x) :=
            hlt x (List.mem_cons_self x l₁')
          rcases List.mem_cons.mp hy with rfl | hy'
          · exact hxlt
          · rcases List.mem_cons.mp hy' with rfl | hy''
            · exact lt_of_le_of_lt (le_of_not_lt h) hxlt
            · exact hlt y (List.mem_cons_of_mem x hy'')

theorem pyMaxBy_isSome (key : α → β) {l : List α} (h : l ≠ []) :
    ∃ m, pyMaxBy key l = some m := by
  cases l with
  | nil => exact absurd rfl h
  | cons x xs => exact ⟨_, rfl⟩

theorem pyMaxBy_le {key : α → β} {l : List α} {m : α}
    (h : pyMaxBy key l = some m) : ∀ y ∈ l, key y ≤ key m := by
  cases l with
  | nil => cases h
  | cons x xs =>
    simp only [pyMaxBy, Option.some.injEq] at h
    subst h
    intro y hy
    rcases List.mem_cons.mp hy with rfl | hy'
    · exact key_le_foldl key y xs
    · exact key_le_foldl_of_mem key x xs y hy'

theorem pyMaxBy_first_max {key : α → β} {l : List α} {m : α}
    (h : pyMaxBy key l = some m) :
    ∃ l₁ l₂, l = l₁ ++ m :: l₂ ∧ ∀ y ∈ l₁, key y < key m := by
  cases l with
  | nil => cases h
  | cons x xs =>
    simp only [pyMaxBy, Option.some.injEq] at h
    subst h
    exact foldl_first_max key x xs

theorem pyMaxBy_mem {key : α → β} {l : List α} {m : α}
    (h : pyMaxBy key l = some m) : m ∈ l := by
  rcases pyMaxBy_first_max h with ⟨l₁, l₂, heq, -⟩
  rw [heq]
  exact List.mem_append_right _ (List.mem_cons_self m l₂)

end PyMax

/-! ## Data model (`AIModel`, `TaskType`, `PersonalityProfile`, engine state)

Embeds the enumerations and dataclass of `multi_ai_engine.py`.  The
`self.models` dictionary becomes an insertion-ordered association list;
response dictionaries become a structure whose `Option` fields model
keys that may be absent. -/

inductive AIModel
  | GPT4 | GPT35_TURBO | GEMINI_PRO | CLAUDE | LLAMA2 | T5
  deriving DecidableEq, Fintype

/-- The `.value` string of each `AIModel` member. -/
def modelValue : AIModel → String
  | .GPT4 => "gpt-4"
  | .GPT35_TURBO => "gpt-3.5-turbo"
  | .GEMINI_PRO => "gemini-pro"
  | .CLAUDE => "claude-3"
  | .LLAMA2 => "llama-2-70b"
  | .T5 => "t5-large"

inductive TaskType
  | CONVERSATION | CONTENT_GENERATION | FINANCIAL_ADVICE | PSYCHOLOGICAL_SUPPORT
  | CREATIVE_WRITING | TECHNICAL_ANALYSIS | TRANSLATION | RESEARCH | MEDITATION
  | COMPANIONSHIP
  deriving DecidableEq, Fintype

/-- The `.value` string of each `TaskType` member. -/
def taskTypeValue : TaskType → String
  | .CONVERSATION => "conversation"
  | .CONTENT_GENERATION => "content_generation"
  | .FINANCIAL_ADVICE => "financial_advice"
  | .PSYCHOLOGICAL_SUPPORT => "psychological_support"
  | .CREATIVE_WRITING => "creative_writing"
  | .TECHNICAL_ANALYSIS => "technical_analysis"
  | .TRANSLATION => "translation"
  | .RESEARCH => "research"
  | .MEDITATION => "meditation"
  | .COMPANIONSHIP => "companionship"

/-- One value of the `self.models` dictionary (the `client` handle is an
opaque external resource and carries no decision-relevant data, so it is
not modelled).  Float values from the source appear only in order
comparisons and all have at most two decimals, so they are embedded
scaled by 100 as integers (`0.95` becomes `95`). -/
structure ModelInfo where
  available : Bool
  specialties : List TaskType
  performance_score : Int
  deriving DecidableEq

/-- The `self.models` dictionary: insertion-ordered keys, as in Python. -/
abbrev Registry := List (AIModel × ModelInfo)

/-- The `PersonalityProfile` dataclass; the four float levels are used
only in order comparisons, so they are embedded scaled by 100 as
integers (`0.5` becomes `50`). -/
structure PersonalityProfile where
  gender : String
  name : String
  personality_traits : List String
  communication_style : String
  expertise_areas : List String
  emotional_intelligence : Int
  humor_level : Int
  formality_level : Int
  empathy_level : Int
  deriving DecidableEq

/-- A response dictionary.  `Option` fields model dictionary keys that a
given code path may leave absent. -/
structure Response where
  success : Bool
  content : Option String := none
  model_used : Option String := none
  task_type : Option String := none
  tokens_used : Option Nat := none
  error : Option String := none
  fallback_response : Option String := none
  personality_applied : Option Bool := none
  personality_name : Option String := none
  deriving DecidableEq

/-- One `conversation_history` entry (`_save_to_history`).  The
`datetime.now().isoformat()` timestamp is wall-clock data with no
decision logic attached and is not modelled. -/
structure Entry where
  user_input : String
  response : Response
  task_type : TaskType
  model_used : AIModel
  success : Bool
  deriving DecidableEq

/-- The mutable instance state of `MultiAIEngine` that the claims touch. -/
structure EngineState where
  models : Registry
  personality : Option PersonalityProfile
  conversation_history : List Entry
  deriving DecidableEq

/-! ## TaskClassifier (`_detect_task_type`) -/

/-- The trigger-phrase table of `_detect_task_type`, keyed by category.
Categories outside the table have no trigger phrases. -/
def keywordsFor : TaskType → List String
  | .FINANCIAL_ADVICE =>
      ["سهام", "بورس", "ارز", "بیت کوین", "تریدینگ", "سرمایه‌گذاری",
       "stock", "crypto", "bitcoin", "trading", "investment"]
  | .PSYCHOLOGICAL_SUPPORT =>
      ["غمگین", "استرس", "اضطراب", "مشکل", "نگران", "افسرده",
       "sad", "stress", "anxiety", "worried", "depressed", "help me"]
  | .CREATIVE_WRITING =>
      ["داستان", "شعر", "نوشتن", "خلاقیت", "متن",
       "story", "poem", "write", "creative", "content"]
  | .TRANSLATION =>
      ["ترجمه", "translate", "معنی", "meaning"]
  | .MEDITATION =>
      ["آرامش", "مدیتیشن", "تنفس", "آرام", "استراحت",
       "meditation", "relax", "calm", "peace", "breathe"]
  | .RESEARCH =>
      ["تحقیق", "جستجو", "اطلاعات", "یاد بگیر", "بگو",
       "research", "search", "information", "learn", "tell me"]
  | _ => []

/-- The keys of the `task_keywords` dictionary, in literal order. -/
def tableCats : List TaskType :=
  [.FINANCIAL_ADVICE, .PSYCHOLOGICAL_SUPPORT, .CREATIVE_WRITING,
   .TRANSLATION, .MEDITATION, .RESEARCH]

/-- `score = sum(1 for keyword in keywords if keyword in input_lower)`:
each trigger phrase contributes at most 1, however often it occurs. -/
def keyword_score (keywords : List String) (input_lower : String) : Nat :=
  keywords.countP (fun k => strIn k input_lower)

/-- The score `_detect_task_type` computes for one category. -/
def codeScore (c : TaskType) (input : String) : Nat :=
  keyword_score (keywordsFor c) (lowerStr input)

/-- The `task_scores` dictionary: categories with positive score, in
table order. -/
def task_scores (input : String) : List (TaskType × Nat) :=
  (tableCats.map (fun c => (c, codeScore c input))).filter (fun p => decide (0 < p.2))

/-- `_detect_task_type`: `max(task_scores, key=task_scores.get)` when
some score is positive, else the `conversation` default. -/
def detect_task_type (user_input : String) : TaskType :=
  match pyMaxBy (fun p : TaskType × Nat => p.2) (task_scores user_input) with
  | some p => p.1
  | none => .CONVERSATION

/-- Modelled from the spec: the scoring rule as the specification words
it — for each category, the sum over trigger phrases of the number of
occurrences of that phrase anywhere in the lower-cased input, repeated
and overlapping occurrences counted independently.  Stated for
comparison with `keyword_score`, the rule the source implements. -/
def spec_occurrence_score (keywords : List String) (input_lower : String) : Nat :=
  (keywords.map (fun k => countOccurrences k.data input_lower.data)).sum

/-- The specification-side score of one category. -/
def specScore (c : TaskType) (input : String) : Nat :=
  spec_occurrence_score (keywordsFor c) (lowerStr input)

/-! ## ModelSelector (`_select_best_model`) -/

/-- The filter step of `_select_best_model`: available adapters whose
specialties contain the task. -/
def suitable_models (models : Registry) (tt : TaskType) : Registry :=
  models.filter (fun p => p.2.available && decide (tt ∈ p.2.specialties))

/-- `_select_best_model`: highest `performance_score` among suitable
adapters (Python `max` — first wins on ties); otherwise `GPT35_TURBO`
whenever that key is present in `self.models`, else the first registry
key.  `none` models the `IndexError` an empty registry would raise. -/
def select_best_model (models : Registry) (tt : TaskType) : Option AIModel :=
  match pyMaxBy (fun p : AIModel × ModelInfo => p.2.performance_score)
      (suitable_models models tt) with
  | some p => some p.1
  | none =>
      if models.any (fun p => decide (p.1 = AIModel.GPT35_TURBO)) then
        some AIModel.GPT35_TURBO
      else
        models.head?.map (fun p => p.1)

/-! ## Dispatch (`_process_with_model` and the backend helpers)

The prompt construction (system prompts, personality sentences, replay
of the last five history entries) only feeds the external generative
call; what that external collaborator did is abstracted as an
`AdapterOutcome`.  An `Except` return models an exception propagating
out of a helper. -/

/-- What the underlying external generative call did: returned content
(with a token count), or raised an exception whose `str` is `message`. -/
inductive AdapterOutcome
  | ok (content : String) (total_tokens : Nat)
  | exn (message : String)
  deriving DecidableEq

/-- The localized apology `_process_with_model` attaches on failure. -/
def fallbackApology : String :=
  "متأسفم، در حال حاضر مشکلی در پردازش درخواست شما وجود دارد."

/-- `_process_with_openai`: success dictionary on a completed call; an
exception from `openai.ChatCompletion.acreate` propagates (`.error`). -/
def process_with_openai (model : AIModel) (tt : TaskType)
    (outcome : AdapterOutcome) : Except String Response :=
  match outcome with
  | .ok c toks =>
      .ok { success := true, content := some c,
            model_used := some (modelValue model),
            task_type := some (taskTypeValue tt), tokens_used := some toks }
  | .exn msg => .error msg

/-- `_process_with_gemini`: has its own `try`, so an exception from the
Gemini call is converted locally — with an `error` field only, and no
`fallback_response`. -/
def process_with_gemini (tt : TaskType) (outcome : AdapterOutcome) : Response :=
  match outcome with
  | .ok c _ =>
      { success := true, content := some c, model_used := some "gemini-pro",
        task_type := some (taskTypeValue tt) }
  | .exn msg => { success := false, error := some ("Gemini error: " ++ msg) }

/-- `_process_with_model`: route by model family; the surrounding `try`
converts a propagated exception into the `success=False` dictionary with
`error = str(e)` and the fixed apology. -/
def process_with_model (model : AIModel) (tt : TaskType)
    (outcome : AdapterOutcome) : Response :=
  let attempt : Except String Response :=
    if model = AIModel.GPT4 ∨ model = AIModel.GPT35_TURBO then
      process_with_openai model tt outcome
    else if model = AIModel.GEMINI_PRO then
      .ok (process_with_gemini tt outcome)
    else
      process_with_openai AIModel.GPT35_TURBO tt outcome
  match attempt with
  | .ok r => r
  | .error msg =>
      { success := false, error := some msg,
        fallback_response := some fallbackApology }

/-! ## PersonalityEngine (`_apply_personality`) -/

/-- The greeting phrases whose presence suppresses the informal opener. -/
def greetings : List String := ["سلام", "hello", "hi"]

/-- The informal openers (`friendly_starters`). -/
def friendly_starters : List String := ["راستش", "ببین", "خب", "Well", "So"]

/-- The empathetic phrases (`empathy_phrases`). -/
def empathy_phrases : List String :=
  ["درکت می‌کنم", "حست رو می‌فهمم", "I understand how you feel",
   "این واقعاً سخته", "You\x27re not alone in this"]

/-- `any(greeting in content.lower() for greeting in [...])`. -/
def containsGreeting (content : String) : Bool :=
  greetings.any (fun g => strIn g (lowerStr content))

/-- The `random.random()` draws and `random.choice` picks
`_apply_personality` may consume, made explicit.  A draw from `[0,1)`
is scaled by 100, like every float of the source. -/
structure RandDraws where
  opener_draw : Int
  opener_choice : Fin 5
  empathy_draw : Int
  empathy_choice : Fin 5
  deriving DecidableEq

/-- `_apply_personality`: identity on failed responses or without a
profile; otherwise the probabilistic opener and empathy prepends (the
humor branch of the source is `pass` and has no effect), then the two
annotation keys. -/
def apply_personality (personality : Option PersonalityProfile)
    (result : Response) (task_type : TaskType) (rd : RandDraws) : Response :=
  match personality with
  | none => result
  | some p =>
    if result.success then
      let content0 := result.content.getD ""
      let content1 :=
        if p.formality_level < 50 ∧ containsGreeting content0 = false ∧
            rd.opener_draw < 30 then
          friendly_starters.getD rd.opener_choice.val "" ++ ", " ++ content0
        else content0
      let content2 :=
        if task_type = TaskType.PSYCHOLOGICAL_SUPPORT ∧ 80 < p.empathy_level ∧
            rd.empathy_draw < 40 then
          empathy_phrases.getD rd.empathy_choice.val "" ++ ". " ++ content1
        else content1
      { result with content := some content2, personality_applied := some true,
                    personality_name := some p.name }
    else result

/-! ## ConversationStore (`_save_to_history`, `get_conversation_stats`) -/

/-- The entry dictionary `_save_to_history` builds. -/
def mkEntry (user_input : String) (response : Response) (tt : TaskType)
    (model : AIModel) : Entry :=
  { user_input := user_input, response := response, task_type := tt,
    model_used := model, success := response.success }

/-- The list mutation of `_save_to_history`: append, then keep only the
last 100 entries (`self.conversation_history[-100:]`). -/
def history_append (hist : List Entry) (e : Entry) : List Entry :=
  if 100 < (hist ++ [e]).length then
    (hist ++ [e]).drop ((hist ++ [e]).length - 100)
  else hist ++ [e]

/-- `_save_to_history`. -/
def save_to_history (hist : List Entry) (user_input : String)
    (response : Response) (tt : TaskType) (model : AIModel) : List Entry :=
  history_append hist (mkEntry user_input response tt model)

/-- The dictionary `get_conversation_stats` returns; `Option` fields
model keys absent from the empty-history dictionary (and the
`... if task_counts else None` values). -/
structure Stats where
  total_conversations : Nat
  task_distribution : Option (List (String × Nat)) := none
  model_usage : Option (List (String × Nat)) := none
  success_rate : Option Rat := none
  most_used_task : Option String := none
  most_used_model : Option String := none
  deriving DecidableEq

/-- `d[k] = d.get(k, 0) + 1` on an insertion-ordered dictionary. -/
def bump : List (String × Nat) → String → List (String × Nat)
  | [], k => [(k, 1)]
  | (k', v) :: rest, k =>
      if k' = k then (k', v + 1) :: rest else (k', v) :: bump rest k

/-- `get_conversation_stats`.  The `f"{rate:.1f}%"` presentation of the
success rate is string formatting over the same number; the rate itself
is kept as a rational. -/
def get_conversation_stats (hist : List Entry) : Stats :=
  if hist.isEmpty then { total_conversations := 0 }
  else
    let acc := hist.foldl
      (fun acc e =>
        (bump acc.1 (taskTypeValue e.task_type),
         bump acc.2.1 (modelValue e.model_used),
         acc.2.2 + (if e.success then 1 else 0)))
      (([] : List (String × Nat)), ([] : List (String × Nat)), (0 : Nat))
    { total_conversations := hist.length,
      task_distribution := some acc.1,
      model_usage := some acc.2.1,
      success_rate := some ((acc.2.2 : Rat) / (hist.length : Rat) * 100),
      most_used_task := (pyMaxBy (fun p : String × Nat => p.2) acc.1).map (fun p => p.1),
      most_used_model := (pyMaxBy (fun p : String × Nat => p.2) acc.2.1).map (fun p => p.1) }

/-! ## Orchestrator (`process_request`, `get_specialized_response`) -/

/-- The task `process_request` works with: the explicit one when given
(Python: `if not task_type`), else the classifier result. -/
def effective_task (user_input : String) : Option TaskType → TaskType
  | some t => t
  | none => detect_task_type user_input

/-- `process_request`: classify (when no explicit type), select,
dispatch, personalize, record.  `none` models the `IndexError` raised
when the registry is empty; the unused `context` argument of the source
is omitted. -/
def process_request (st : EngineState) (user_input : String)
    (task_type : Option TaskType) (outcome : AdapterOutcome) (rd : RandDraws) :
    Option (Response × EngineState) :=
  let tt := effective_task user_input task_type
  match select_best_model st.models tt with
  | none => none
  | some model =>
    let result := process_with_model model tt outcome
    let personalized := apply_personality st.personality result tt rd
    let hist := save_to_history st.conversation_history user_input personalized tt model
    some (personalized, { st with conversation_history := hist })

/-- The `specialty_configs` keys of `get_specialized_response` and the
task each binds (the system-prompt text only feeds the external call). -/
def specialty_task (s : String) : Option TaskType :=
  if s = "financial_advisor" then some .FINANCIAL_ADVICE
  else if s = "therapist" then some .PSYCHOLOGICAL_SUPPORT
  else if s = "creative_writer" then some .CREATIVE_WRITING
  else if s = "meditation_guide" then some .MEDITATION
  else none

/-- `get_specialized_response`: unknown specialties short-circuit with an
error dictionary before any dispatch; known ones delegate to
`process_request` with the bound task type. -/
def get_specialized_response (st : EngineState) (specialty query : String)
    (outcome : AdapterOutcome) (rd : RandDraws) :
    Option (Response × EngineState) :=
  match specialty_task specialty with
  | none => some ({ success := false, error := some "Specialty not found" }, st)
  | some tt => process_request st query (some tt) outcome rd

/-! ## The registry `_initialize_models` builds

With both API keys configured the registry holds, in insertion order:
GPT-4, GPT-3.5-Turbo, Gemini-Pro (available), then the two simulated
local models (unavailable). -/

def gpt4Info : ModelInfo :=
  { available := true,
    specialties := [.CONVERSATION, .CONTENT_GENERATION, .RESEARCH],
    performance_score := 95 }

def gpt35Info : ModelInfo :=
  { available := true, specialties := [.CONVERSATION, .TRANSLATION],
    performance_score := 85 }

def geminiInfo : ModelInfo :=
  { available := true, specialties := [.CREATIVE_WRITING, .TECHNICAL_ANALYSIS],
    performance_score := 90 }

def llamaInfo : ModelInfo :=
  { available := false, specialties := [.CONVERSATION, .RESEARCH],
    performance_score := 80 }

def t5Info : ModelInfo :=
  { available := false, specialties := [.TRANSLATION, .CONTENT_GENERATION],
    performance_score := 75 }

def defaultRegistry : Registry :=
  [(.GPT4, gpt4Info), (.GPT35_TURBO, gpt35Info), (.GEMINI_PRO, geminiInfo),
   (.LLAMA2, llamaInfo), (.T5, t5Info)]

/-! ## Helper lemmas -/

/-- One `_save_to_history` append leaves at most 100 entries. -/
theorem history_append_length_le (hist : List Entry) (e : Entry) :
    (history_append hist e).length ≤ 100 := by
  unfold history_append
  split
  · rw [List.length_drop]
    omega
  · simp only [List.length_append, List.length_cons, List.length_nil] at *
    omega

/-- Appending a sequence of entries to an empty store keeps exactly the
final 100 of them, i.e. drops all but the last 100. -/
theorem foldl_history_append_eq_drop (l : List Entry) :
    l.foldl history_append [] = l.drop (l.length - 100) := by
  induction l using List.reverseRecOn with
  | nil => simp
  | append_singleton l e ih =>
    rw [List.foldl_append, List.foldl_cons, List.foldl_nil, ih]
    by_cases hL : l.length < 100
    · have h1 : l.length - 100 = 0 := by omega
      rw [h1, List.drop_zero]
      unfold history_append
      have h2 : ¬ 100 < (l ++ [e]).length := by
        simp only [List.length_append, List.length_cons, List.length_nil]
        omega
      rw [if_neg h2]
      have h3 : (l ++ [e]).length - 100 = 0 := by
        simp only [List.length_append, List.length_cons, List.length_nil]
        omega
      rw [h3, List.drop_zero]
    · have hlen : (l.drop (l.length - 100)).length = 100 := by
        rw [List.length_drop]
        omega
      unfold history_append
      have hcond : 100 < (l.drop (l.length - 100) ++ [e]).length := by
        simp only [List.length_append, List.length_cons, List.length_nil, hlen]
        omega
      rw [if_pos hcond]
      have h4 : (l.drop (l.length - 100) ++ [e]).length - 100 = 1 := by
        simp only [List.length_append, List.length_cons, List.length_nil, hlen]
      rw [h4]
      have h5 : (1 : Nat) ≤ (l.drop (l.length - 100)).length := by
        rw [hlen]
        omega
      rw [List.drop_append_of_le_length h5, List.drop_drop]
      have h6 : (l ++ [e]).length - 100 = (l.length - 100) + 1 := by
        simp only [List.length_append, List.length_cons, List.length_nil]
        omega
      rw [h6]
      have h7 : (l.length - 100) + 1 ≤ l.length := by omega
      rw [List.drop_append_of_le_length h7]

/-- The entry just saved is the last element of the store. -/
theorem history_append_getLast? (hist : List Entry) (e : Entry) :
    (history_append hist e).getLast? = some e := by
  unfold history_append
  split
  · next h =>
    have hle : (hist ++ [e]).length - 100 ≤ hist.length := by
      simp only [List.length_append, List.length_cons, List.length_nil] at *
      omega
    rw [List.drop_append_of_le_length hle, List.getLast?_concat]
  · exact List.getLast?_concat hist

/-- `_apply_personality` returns a failed response unchanged. -/
theorem apply_personality_of_not_success (p : Option PersonalityProfile)
    (r : Response) (tt : TaskType) (rd : RandDraws) (h : r.success = false) :
    apply_personality p r tt rd = r := by
  unfold apply_personality
  cases p with
  | none => rfl
  | some q => rw [h]; rfl

/-- `_apply_personality` is the identity when no profile is set. -/
theorem apply_personality_of_no_profile (r : Response) (tt : TaskType)
    (rd : RandDraws) : apply_personality none r tt rd = r := rfl

/-- With a non-empty registry, `_select_best_model` always returns a
model (the `IndexError` branch is unreachable). -/
theorem select_best_model_isSome {models : Registry} (tt : TaskType)
    (h : models ≠ []) : ∃ m, select_best_model models tt = some m := by
  unfold select_best_model
  cases hmax : pyMaxBy (fun p : AIModel × ModelInfo => p.2.performance_score)
      (suitable_models models tt) with
  | some p => exact ⟨p.1, rfl⟩
  | none =>
    cases hany : models.any (fun p => decide (p.1 = AIModel.GPT35_TURBO)) with
    | true => exact ⟨AIModel.GPT35_TURBO, by simp⟩
    | false =>
      cases models with
      | nil => exact absurd rfl h
      | cons x xs => exact ⟨x.1, by simp⟩

/-! ## Claim theorems -/

/-- C4: the conversation history holds at most 100 entries after every
append, oldest evicted first: appending 150 entries sequentially to an
empty store leaves exactly the last 100 (those after the first 50), in
their original relative order. -/
theorem C4_history_bound :
    (∀ (hist : List Entry) (e : Entry),
        (history_append hist e).length ≤ 100) ∧
    (∀ l : List Entry, l.length = 150 →
        l.foldl history_append [] = l.drop 50) := by
  refine ⟨history_append_length_le, ?_⟩
  intro l hlen
  rw [foldl_history_append_eq_drop, hlen]

/-- A concrete response, entry, profile, engine state and draw record
used by the witnesses below. -/
def sampleResponse : Response := { success := true, content := some "ok" }

def sampleEntry : Entry := mkEntry "hi there" sampleResponse .CONVERSATION .GPT4

def failedResponse : Response := { success := false, error := some "boom" }

/-- The profile `setup_personality(gender="female", name="Aria",
personality_type="friendly")` builds (levels scaled by 100). -/
def sampleProfile : PersonalityProfile :=
  { gender := "female", name := "Aria",
    personality_traits := ["دوستانه", "مهربان", "صبور", "کمک‌کار"],
    communication_style := "گرم و صمیمی",
    expertise_areas := ["مکالمه عمومی", "مشاوره", "تولید محتوا", "تحلیل مالی",
                        "حمایت روانی", "آموزش", "سرگرمی"],
    emotional_intelligence := 90, humor_level := 70, formality_level := 30,
    empathy_level := 90 }

def rd0 : RandDraws :=
  { opener_draw := 0, opener_choice := 0, empathy_draw := 0, empathy_choice := 0 }

def emptyEngine : EngineState :=
  { models := defaultRegistry, personality := none, conversation_history := [] }

/-- Witness for C4 at concrete inputs: a single append stays within the
bound, and 150 identical entries fold down to the last 100. -/
theorem C4_history_bound_witness :
    (history_append [] sampleEntry).length ≤ 100 ∧
    ((List.replicate 150 sampleEntry).foldl history_append []
      = (List.replicate 150 sampleEntry).drop 50) :=
  ⟨C4_history_bound.1 [] sampleEntry,
   C4_history_bound.2 (List.replicate 150 sampleEntry) (by simp)⟩

/-- C7: `_apply_personality` returns the record unchanged — content
byte-identical, no annotation keys added — whenever the response has
`success=False` or no personality profile is set. -/
theorem C7_personality_noop (p : Option PersonalityProfile) (r : Response)
    (tt : TaskType) (rd : RandDraws)
    (h : r.success = false ∨ p = none) :
    apply_personality p r tt rd = r := by
  rcases h with h | h
  · exact apply_personality_of_not_success p r tt rd h
  · rw [h]
    rfl

/-- Witness for C7: a concrete failed response passes through a concrete
profile untouched. -/
theorem C7_personality_noop_witness :
    failedResponse.success = false ∧
    apply_personality (some sampleProfile) failedResponse .CONVERSATION rd0
      = failedResponse :=
  ⟨rfl, C7_personality_noop (some sampleProfile) failedResponse .CONVERSATION rd0
    (Or.inl rfl)⟩

/-- C9: `get_conversation_stats` on an empty history reports
`total_conversations = 0` and carries no most-used category or model. -/
theorem C9_stats_empty :
    (get_conversation_stats []).total_conversations = 0 ∧
    (get_conversation_stats []).most_used_task = none ∧
    (get_conversation_stats []).most_used_model = none :=
  ⟨rfl, rfl, rfl⟩

/-- C10: an unknown specialty key makes `get_specialized_response`
return exactly `{"success": False, "error": "Specialty not found"}`,
with the engine state (in particular the conversation history)
unchanged and without consulting the adapter outcome at all. -/
theorem C10_unknown_specialty (st : EngineState) (s q : String)
    (o : AdapterOutcome) (rd : RandDraws)
    (h : s ∉ ["financial_advisor", "therapist", "creative_writer",
              "meditation_guide"]) :
    get_specialized_response st s q o rd =
      some ({ success := false, error := some "Specialty not found" }, st) := by
  simp only [List.mem_cons, List.not_mem_nil, or_false, not_or] at h
  obtain ⟨h1, h2, h3, h4⟩ := h
  unfold get_specialized_response specialty_task
  rw [if_neg h1, if_neg h2, if_neg h3, if_neg h4]

/-- Witness for C10 at the unknown key `"chef"`. -/
theorem C10_unknown_specialty_witness :
    "chef" ∉ ["financial_advisor", "therapist", "creative_writer",
              "meditation_guide"] ∧
    get_specialized_response emptyEngine "chef" "cook" (.exn "x") rd0 =
      some ({ success := false, error := some "Specialty not found" },
            emptyEngine) :=
  ⟨by decide,
   C10_unknown_specialty emptyEngine "chef" "cook" (.exn "x") rd0 (by decide)⟩

/-! ## Classifier lemmas and claims C1, C5 -/

/-- Membership in the `task_scores` dictionary characterised. -/
theorem mem_task_scores {input : String} {c : TaskType} {s : Nat} :
    (c, s) ∈ task_scores input ↔
      c ∈ tableCats ∧ s = codeScore c input ∧ 0 < s := by
  unfold task_scores
  simp only [List.mem_filter, List.mem_map, decide_eq_true_eq]
  constructor
  · rintro ⟨⟨a, ha, heq⟩, hpos⟩
    injection heq with hac hsc
    subst hac
    subst hsc
    exact ⟨ha, rfl, hpos⟩
  · rintro ⟨hc, rfl, hpos⟩
    exact ⟨⟨c, hc, rfl⟩, hpos⟩

/-- Categories outside the keyword table always score zero. -/
theorem codeScore_pos_mem (c : TaskType) (input : String)
    (h : 0 < codeScore c input) : c ∈ tableCats := by
  cases c <;> first
    | decide
    | simp [codeScore, keywordsFor, keyword_score] at h

/-- C1 (amended): when exactly two categories have positive classifier
score — the score being the number of distinct trigger phrases present,
each counted once — and the scores differ, `_detect_task_type` returns
the category with the higher score. -/
theorem C1_two_category_winner (input : String) (c1 c2 : TaskType)
    (hothers : ∀ c : TaskType, c ≠ c1 → c ≠ c2 → codeScore c input = 0)
    (h2 : 0 < codeScore c2 input)
    (h12 : codeScore c2 input < codeScore c1 input) :
    detect_task_type input = c1 := by
  have h1pos : 0 < codeScore c1 input := lt_trans h2 h12
  have hc1 : c1 ∈ tableCats := codeScore_pos_mem c1 input h1pos
  have hmem1 : (c1, codeScore c1 input) ∈ task_scores input :=
    mem_task_scores.mpr ⟨hc1, rfl, h1pos⟩
  have hne : task_scores input ≠ [] := List.ne_nil_of_mem hmem1
  obtain ⟨m, hm⟩ :=
    pyMaxBy_isSome (fun p : TaskType × Nat => p.2) hne
  obtain ⟨mc, ms⟩ := m
  have hmmem : (mc, ms) ∈ task_scores input := pyMaxBy_mem hm
  have hub : codeScore c1 input ≤ ms :=
    pyMaxBy_le hm (c1, codeScore c1 input) hmem1
  obtain ⟨-, hms, hmpos⟩ := mem_task_scores.mp hmmem
  have hdet : detect_task_type input = mc := by
    unfold detect_task_type
    rw [hm]
  by_cases hmc1 : mc = c1
  · rw [hdet, hmc1]
  · by_cases hmc2 : mc = c2
    · subst hmc2
      omega
    · have h0 := hothers mc hmc1 hmc2
      omega

/-- Witness for C1 at "stock crypto sad": financial scores 2, the
psychological category scores 1, everything else 0, and the classifier
returns financial advice. -/
theorem C1_two_category_winner_witness :
    0 < codeScore .PSYCHOLOGICAL_SUPPORT "stock crypto sad" ∧
    codeScore .PSYCHOLOGICAL_SUPPORT "stock crypto sad"
      < codeScore .FINANCIAL_ADVICE "stock crypto sad" ∧
    detect_task_type "stock crypto sad" = .FINANCIAL_ADVICE :=
  ⟨by decide, by decide,
   C1_two_category_winner "stock crypto sad" .FINANCIAL_ADVICE
     .PSYCHOLOGICAL_SUPPORT (by decide) (by decide) (by decide)⟩

/-- C1 counterexample: on "stock stock stock sad stress" the spec
counting rule (occurrences, repeats counted) gives the two triggered
categories different aggregate scores — financial 3, psychological 2,
every other category 0 — so the claim requires `financial_advice`; the
code counts each distinct phrase once (financial 1, psychological 2)
and returns `psychological_support`. -/
theorem C1_counterexample :
    specScore .FINANCIAL_ADVICE "stock stock stock sad stress" = 3 ∧
    specScore .PSYCHOLOGICAL_SUPPORT "stock stock stock sad stress" = 2 ∧
    specScore .CONVERSATION "stock stock stock sad stress" = 0 ∧
    specScore .CONTENT_GENERATION "stock stock stock sad stress" = 0 ∧
    specScore .CREATIVE_WRITING "stock stock stock sad stress" = 0 ∧
    specScore .TECHNICAL_ANALYSIS "stock stock stock sad stress" = 0 ∧
    specScore .TRANSLATION "stock stock stock sad stress" = 0 ∧
    specScore .RESEARCH "stock stock stock sad stress" = 0 ∧
    specScore .MEDITATION "stock stock stock sad stress" = 0 ∧
    specScore .COMPANIONSHIP "stock stock stock sad stress" = 0 ∧
    detect_task_type "stock stock stock sad stress"
      = .PSYCHOLOGICAL_SUPPORT := by decide

/-- `countP` as a sum of 0/1 indicators. -/
theorem countP_eq_sum_ite {α : Type} (p : α → Bool) (l : List α) :
    l.countP p = (l.map (fun a => if p a then 1 else 0)).sum := by
  induction l with
  | nil => rfl
  | cons x l ih =>
    rw [List.countP_cons, List.map_cons, List.sum_cons, ih, Nat.add_comm]

/-- The membership count the code computes never exceeds the occurrence
count of the specification. -/
theorem keyword_score_le_spec (keywords : List String) (input_lower : String) :
    keyword_score keywords input_lower
      ≤ spec_occurrence_score keywords input_lower := by
  unfold keyword_score spec_occurrence_score
  induction keywords with
  | nil => simp
  | cons k l ih =>
    rw [List.countP_cons, List.map_cons, List.sum_cons]
    have hk : (if strIn k input_lower then 1 else 0)
        ≤ countOccurrences k.data input_lower.data := by
      split
      · next hpres => exact one_le_countOccurrences_of_isSubstrL _ _ hpres
      · exact Nat.zero_le _
    omega

/-- C5 (amended): the score the classifier uses for a category is the
number of distinct trigger phrases present in the lower-cased input —
each phrase contributing 1 whether it occurs once or many times — and is
therefore bounded by (not equal to) the occurrence count of the spec. -/
theorem C5_score_rule (input : String) (c : TaskType) (s : Nat)
    (h : (c, s) ∈ task_scores input) :
    s = ((keywordsFor c).map
        (fun k => if strIn k (lowerStr input) then 1 else 0)).sum ∧
    s ≤ specScore c input := by
  obtain ⟨-, rfl, -⟩ := mem_task_scores.mp h
  exact ⟨countP_eq_sum_ite _ _, keyword_score_le_spec _ _⟩

/-- Witness for C5 at "stock stock", where the financial category holds
score 1. -/
theorem C5_score_rule_witness :
    ((TaskType.FINANCIAL_ADVICE, 1) ∈ task_scores "stock stock") ∧
    (1 = ((keywordsFor .FINANCIAL_ADVICE).map
        (fun k => if strIn k (lowerStr "stock stock") then 1 else 0)).sum ∧
     1 ≤ specScore .FINANCIAL_ADVICE "stock stock") :=
  ⟨by decide, C5_score_rule "stock stock" .FINANCIAL_ADVICE 1 (by decide)⟩

/-- C5 counterexample: "stock" occurs twice in "stock stock", so the
claimed occurrence count yields 2 for the financial category, while the
code computes 1 — a phrase appearing twice does not contribute 2. -/
theorem C5_counterexample :
    specScore .FINANCIAL_ADVICE "stock stock" = 2 ∧
    codeScore .FINANCIAL_ADVICE "stock stock" = 1 ∧
    (2 : Nat) ≠ 1 := by decide

/-! ## Selector claims C2, C6 -/

/-- C2: whenever some registry entry is available and lists the task
among its specialties, `_select_best_model` returns an entry that is
available, specialized, of maximal performance score among the suitable
entries, and — on score ties — the first such entry in registry order
(`suitable_models` preserves registry order, and every suitable entry
strictly before the chosen one scores strictly less). -/
theorem C2_selector (registry : Registry) (tt : TaskType) (m : AIModel)
    (info : ModelInfo) (hm : (m, info) ∈ registry)
    (hav : info.available = true) (hsp : tt ∈ info.specialties) :
    ∃ p : AIModel × ModelInfo, ∃ l₁ l₂,
      select_best_model registry tt = some p.1 ∧
      p.2.available = true ∧ tt ∈ p.2.specialties ∧ p ∈ registry ∧
      (∀ q ∈ suitable_models registry tt,
          q.2.performance_score ≤ p.2.performance_score) ∧
      suitable_models registry tt = l₁ ++ p :: l₂ ∧
      (∀ q ∈ l₁, q.2.performance_score < p.2.performance_score) := by
  have hsuit : (m, info) ∈ suitable_models registry tt := by
    unfold suitable_models
    rw [List.mem_filter]
    exact ⟨hm, by simp [hav, hsp]⟩
  have hne : suitable_models registry tt ≠ [] := List.ne_nil_of_mem hsuit
  obtain ⟨p, hp⟩ := pyMaxBy_isSome
    (fun p : AIModel × ModelInfo => p.2.performance_score) hne
  obtain ⟨l₁, l₂, hdecomp, hfirst⟩ := pyMaxBy_first_max hp
  have hpmem : p ∈ suitable_models registry tt := pyMaxBy_mem hp
  have hsel : select_best_model registry tt = some p.1 := by
    unfold select_best_model
    rw [hp]
  unfold suitable_models at hpmem
  rw [List.mem_filter] at hpmem
  obtain ⟨hpreg, hpred⟩ := hpmem
  simp only [Bool.and_eq_true, decide_eq_true_eq] at hpred
  exact ⟨p, l₁, l₂, hsel, hpred.1, hpred.2, hpreg,
    pyMaxBy_le hp, hdecomp, hfirst⟩

/-- Witness for C2 on the registry `_initialize_models` builds: GPT-4 is
available for conversation, and the selector indeed returns GPT-4 (score
95 beating GPT-3.5 at 85). -/
theorem C2_selector_witness :
    ((AIModel.GPT4, gpt4Info) ∈ defaultRegistry) ∧
    gpt4Info.available = true ∧
    TaskType.CONVERSATION ∈ gpt4Info.specialties ∧
    (∃ p : AIModel × ModelInfo, ∃ l₁ l₂,
      select_best_model defaultRegistry .CONVERSATION = some p.1 ∧
      p.2.available = true ∧ TaskType.CONVERSATION ∈ p.2.specialties ∧
      p ∈ defaultRegistry ∧
      (∀ q ∈ suitable_models defaultRegistry .CONVERSATION,
          q.2.performance_score ≤ p.2.performance_score) ∧
      suitable_models defaultRegistry .CONVERSATION = l₁ ++ p :: l₂ ∧
      (∀ q ∈ l₁, q.2.performance_score < p.2.performance_score)) ∧
    select_best_model defaultRegistry .CONVERSATION = some .GPT4 :=
  ⟨by decide, by decide, by decide,
   C2_selector defaultRegistry .CONVERSATION .GPT4 gpt4Info
     (by decide) (by decide) (by decide),
   by decide⟩

/-- C6 (amended): with no available specialist, `_select_best_model`
returns `GPT35_TURBO` whenever that key is *present* in the registry —
even if that adapter is marked unavailable — and only when the key is
absent does it return the first registry entry (regardless of
availability); it always returns something on a non-empty registry. -/
theorem C6_fallback (registry : Registry) (tt : TaskType)
    (hno : suitable_models registry tt = []) (hne : registry ≠ []) :
    ((registry.any (fun p => decide (p.1 = AIModel.GPT35_TURBO))) = true →
        select_best_model registry tt = some .GPT35_TURBO) ∧
    ((registry.any (fun p => decide (p.1 = AIModel.GPT35_TURBO))) = false →
        ∃ p, registry.head? = some p ∧
          select_best_model registry tt = some p.1) := by
  unfold select_best_model
  rw [hno]
  constructor
  · intro hany
    simp [pyMaxBy, hany]
  · intro hany
    cases registry with
    | nil => exact absurd rfl hne
    | cons x xs =>
      refine ⟨x, rfl, ?_⟩
      simp [pyMaxBy, hany]

/-- The GPT-3.5 descriptor with availability off (not constructible by
`_initialize_models`, but the registry is mutable instance state and the
specification quantifies over registries). -/
def gpt35Unavailable : ModelInfo :=
  { available := false, specialties := [.CONVERSATION, .TRANSLATION],
    performance_score := 85 }

/-- A registry whose first entry is LLaMA-2 and in which the default
GPT-3.5 adapter is present but unavailable. -/
def c6Registry : Registry :=
  [(.LLAMA2, llamaInfo), (.GPT35_TURBO, gpt35Unavailable)]

/-- A registry that does not contain the GPT-3.5 key at all. -/
def c6bRegistry : Registry := [(.LLAMA2, llamaInfo), (.T5, t5Info)]

/-- C6 counterexample: in `c6Registry` no adapter is available and
specialized for conversation and the default GPT-3.5 adapter is itself
unavailable, so the claim requires the first registry entry (LLaMA-2);
the code returns GPT-3.5-Turbo, because its fallback tests presence of
the key, not availability. -/
theorem C6_counterexample :
    suitable_models c6Registry .CONVERSATION = [] ∧
    (AIModel.GPT35_TURBO, gpt35Unavailable) ∈ c6Registry ∧
    gpt35Unavailable.available = false ∧
    c6Registry.head?.map (fun p => p.1) = some .LLAMA2 ∧
    select_best_model c6Registry .CONVERSATION = some .GPT35_TURBO ∧
    AIModel.GPT35_TURBO ≠ .LLAMA2 := by decide

/-- Witness for C6 on a registry without the GPT-3.5 key: the selector
returns the first registry entry. -/
theorem C6_fallback_witness :
    suitable_models c6bRegistry .MEDITATION = [] ∧ c6bRegistry ≠ [] ∧
    (((c6bRegistry.any (fun p => decide (p.1 = AIModel.GPT35_TURBO))) = true →
        select_best_model c6bRegistry .MEDITATION = some .GPT35_TURBO) ∧
     ((c6bRegistry.any (fun p => decide (p.1 = AIModel.GPT35_TURBO))) = false →
        ∃ p, c6bRegistry.head? = some p ∧
          select_best_model c6bRegistry .MEDITATION = some p.1)) :=
  ⟨by decide, by decide,
   C6_fallback c6bRegistry .MEDITATION (by decide) (by decide)⟩

/-! ## Dispatch-failure claim C3 -/

/-- What `_process_with_model` yields when the external call raises:
the OpenAI paths convert in the outer `except` (message plus apology);
the Gemini path converts in its own inner `except` (prefixed message,
no `fallback_response`). -/
theorem process_with_model_exn (model : AIModel) (tt : TaskType) (msg : String) :
    process_with_model model tt (.exn msg) =
      (if model = AIModel.GEMINI_PRO then
        { success := false, error := some ("Gemini error: " ++ msg) }
      else
        { success := false, error := some msg,
          fallback_response := some fallbackApology }) := by
  cases model <;> rfl

/-- `process_request` spelled out once a model has been selected. -/
theorem process_request_some (st : EngineState) (input : String)
    (tt? : Option TaskType) (outcome : AdapterOutcome) (rd : RandDraws)
    (model : AIModel)
    (hmod : select_best_model st.models (effective_task input tt?) = some model) :
    process_request st input tt? outcome rd =
      some (apply_personality st.personality
              (process_with_model model (effective_task input tt?) outcome)
              (effective_task input tt?) rd,
            { st with conversation_history :=
                (save_to_history st.conversation_history input
                  (apply_personality st.personality
                    (process_with_model model (effective_task input tt?) outcome)
                    (effective_task input tt?) rd)
                  (effective_task input tt?) model) }) := by
  simp only [process_request]
  rw [hmod]

/-- C3 (amended): an exception in the external call never escapes
`process_request`; it is converted to a `success=False` record that
carries an error message — with the fixed non-empty apology as
`fallback_response` on the OpenAI paths, but with a
`"Gemini error: "`-prefixed message and *no* `fallback_response` on the
Gemini path — and the failed record is still appended to the
conversation history with `success=False`. -/
theorem C3_dispatch_failure (st : EngineState) (input : String)
    (tt? : Option TaskType) (msg : String) (rd : RandDraws)
    (hne : st.models ≠ []) :
    ∃ r st', process_request st input tt? (.exn msg) rd = some (r, st') ∧
      r.success = false ∧
      ((r.error = some msg ∧ r.fallback_response = some fallbackApology) ∨
       (r.error = some ("Gemini error: " ++ msg) ∧
        r.fallback_response = none)) ∧
      fallbackApology ≠ "" ∧
      ∃ e, st'.conversation_history.getLast? = some e ∧
        e.success = false ∧ e.response = r ∧ e.user_input = input := by
  obtain ⟨model, hmod⟩ :=
    select_best_model_isSome (effective_task input tt?) hne
  have heq := process_request_some st input tt? (.exn msg) rd model hmod
  set t := effective_task input tt? with ht
  set r0 := process_with_model model t (.exn msg) with hr0
  have hr0succ : r0.success = false := by
    rw [hr0, process_with_model_exn]
    split <;> rfl
  have hpers : apply_personality st.personality r0 t rd = r0 :=
    apply_personality_of_not_success _ _ _ _ hr0succ
  rw [hpers] at heq
  refine ⟨r0, _, heq, hr0succ, ?_, by decide, ?_⟩
  · rw [hr0, process_with_model_exn]
    split
    · right
      exact ⟨rfl, rfl⟩
    · left
      exact ⟨rfl, rfl⟩
  · refine ⟨mkEntry input r0 t model, ?_, ?_, rfl, rfl⟩
    · simp only [save_to_history]
      exact history_append_getLast? st.conversation_history _
    · simp [mkEntry, hr0succ]

/-- Witness for C3 on the default registry with no explicit task. -/
theorem C3_dispatch_failure_witness :
    emptyEngine.models ≠ [] ∧
    (∃ r st', process_request emptyEngine "hello" none (.exn "boom") rd0
        = some (r, st') ∧
      r.success = false ∧
      ((r.error = some "boom" ∧ r.fallback_response = some fallbackApology) ∨
       (r.error = some ("Gemini error: " ++ "boom") ∧
        r.fallback_response = none)) ∧
      fallbackApology ≠ "" ∧
      ∃ e, st'.conversation_history.getLast? = some e ∧
        e.success = false ∧ e.response = r ∧ e.user_input = "hello") :=
  ⟨by decide,
   C3_dispatch_failure emptyEngine "hello" none "boom" rd0 (by decide)⟩

/-- An engine whose registry holds only the Gemini adapter. -/
def geminiOnlyEngine : EngineState :=
  { models := [(.GEMINI_PRO, geminiInfo)], personality := none,
    conversation_history := [] }

/-- C3 counterexample: dispatching creative writing through the Gemini
adapter while the external call raises yields a caught failure whose
dictionary has `success=False` and a non-empty error, but *no*
`fallback_response` key at all — the claim requires one. -/
theorem C3_counterexample :
    (process_request geminiOnlyEngine "write a poem" (some .CREATIVE_WRITING)
        (.exn "boom") rd0).map
        (fun p => (p.1.success, p.1.error, p.1.fallback_response))
      = some (false, some "Gemini error: boom", none) := by decide

/-! ## Personality-opener claim C8 -/

/-- Modelled from the spec: the suppression condition as the
specification words it — the response already *starts with* one of the
greeting phrases (the source instead tests whether a greeting occurs
anywhere as a substring). -/
def spec_starts_with_greeting (content : String) : Bool :=
  greetings.any (fun g => g.data.isPrefixOf (lowerStr content).data)

/-- C8 (amended): for a successful response under an informal profile
(`formality < 0.5`) and a task other than psychological support, the
opener prepend is suppressed exactly when the lower-cased content
contains a greeting phrase anywhere as a substring: with a greeting
somewhere in the content no draw changes the content, and with no
greeting some draw prepends an opener (changing the content). -/
theorem C8_opener_gate (p : PersonalityProfile) (r : Response) (c : String)
    (tt : TaskType)
    (hs : r.success = true) (hc : r.content = some c)
    (hf : p.formality_level < 50)
    (htt : tt ≠ TaskType.PSYCHOLOGICAL_SUPPORT) :
    (containsGreeting c = true →
      ∀ rd : RandDraws,
        (apply_personality (some p) r tt rd).content = some c) ∧
    (containsGreeting c = false →
      ∃ rd : RandDraws,
        (apply_personality (some p) r tt rd).content
            = some ("راستش" ++ ", " ++ c) ∧
          "راستش" ++ ", " ++ c ≠ c) := by
  constructor
  · intro hg rd
    have hA : ¬(tt = TaskType.PSYCHOLOGICAL_SUPPORT ∧ 80 < p.empathy_level ∧
        rd.empathy_draw < 40) := fun h => htt h.1
    have hB : ¬(p.formality_level < 50 ∧ containsGreeting c = false ∧
        rd.opener_draw < 30) := fun h => by simp [hg] at h
    simp only [apply_personality, hs, hc, Option.getD_some, if_true,
      if_neg hA, if_neg hB]
  · intro hg
    refine ⟨rd0, ?_, ?_⟩
    · have hA : ¬(tt = TaskType.PSYCHOLOGICAL_SUPPORT ∧ 80 < p.empathy_level ∧
          rd0.empathy_draw < 40) := fun h => htt h.1
      have hB : p.formality_level < 50 ∧ containsGreeting c = false ∧
          rd0.opener_draw < 30 := ⟨hf, hg, by decide⟩
      simp only [apply_personality, hs, hc, Option.getD_some, if_true,
        if_pos hB, if_neg hA]
      rfl
    · intro habs
      have hlen := congrArg String.length habs
      rw [String.length_append, String.length_append] at hlen
      have h5 : ("راستش" : String).length = 5 := rfl
      have h2 : (", " : String).length = 2 := rfl
      omega

/-- A successful response whose content has no greeting substring. -/
def c8CleanResponse : Response := { success := true, content := some "fine work" }

/-- Witness for C8 on an informal profile and the content "fine work". -/
theorem C8_opener_gate_witness :
    c8CleanResponse.success = true ∧
    c8CleanResponse.content = some "fine work" ∧
    sampleProfile.formality_level < 50 ∧
    ((containsGreeting "fine work" = true →
        ∀ rd : RandDraws,
          (apply_personality (some sampleProfile) c8CleanResponse
              .CONVERSATION rd).content = some "fine work") ∧
     (containsGreeting "fine work" = false →
        ∃ rd : RandDraws,
          (apply_personality (some sampleProfile) c8CleanResponse
              .CONVERSATION rd).content
              = some ("راستش" ++ ", " ++ "fine work") ∧
            "راستش" ++ ", " ++ "fine work" ≠ "fine work")) :=
  ⟨rfl, rfl, by decide,
   C8_opener_gate sampleProfile c8CleanResponse "fine work" .CONVERSATION
     rfl rfl (by decide) (by decide)⟩

/-- A successful response that does not start with a greeting but
contains one as a substring ("hi" inside "This"). -/
def c8Response : Response := { success := true, content := some "This is fine" }

/-- C8 counterexample: "This is fine" does not start with any greeting
phrase, the profile is informal, and the draw (0) is below the 30%
prepend threshold — the claim says such a response may receive an opener
— yet the content is returned unchanged, because the source suppresses
on a greeting occurring anywhere ("hi" occurs inside "This"). -/
theorem C8_counterexample :
    spec_starts_with_greeting "This is fine" = false ∧
    containsGreeting "This is fine" = true ∧
    rd0.opener_draw < 30 ∧
    sampleProfile.formality_level < 50 ∧
    (apply_personality (some sampleProfile) c8Response .CONVERSATION rd0).content
      = some "This is fine" := by decide

end PersonalAI
